import Mathlib

set_option maxRecDepth 40000

/-!
# Shallow embedding of the two tool adapters in `tools.py`

`tools.py` defines two stateless adapter functions:

* `scrape_website(website_url, session_id)` — wraps the Firecrawl scrape API;
* `tavily_search(query, search_depth, max_results)` — wraps the Tavily search API.

Both are pure `validate → call → normalize → truncate` pipelines around a single
outbound HTTP POST.  We embed them as total Lean functions.  All the external
nondeterminism a call can observe is passed in explicitly:

* the environment credential (`os.getenv("FIRECRAWL_API_KEY")`) as an
  `Option String`;
* the behaviour of the HTTP request (`requests.post` / `session.post`) as an
  inductive `…Net` value, whose constructors cover a returned response
  (status code, body text, parsed-JSON outcome) as well as each exception
  class that the Python code catches (`Timeout`, `RequestException`,
  `json.JSONDecodeError`, and the catch-all `Exception`);
* the wall clock reading used by `datetime.datetime.now().isoformat()` as a
  `String` argument.

Each adapter returns the response value together with the list of outbound
HTTP requests it issued, so "no network call is made" is the statement that
this list is empty.

Python strings are modelled as Lean `String`; `len(s)` is `s.length`
(both count code points) and the slice `s[:n]` is `strTake n s`
(the first `n` code points).  JSON dictionary fields that the code reads
with `.get(key, default)` are modelled as `Option`-typed record fields.
-/

/-- Python slice `s[:n]`: the first `n` characters of `s`. -/
def strTake (n : Nat) (s : String) : String :=
  String.mk (s.data.take n)

/-- The literal suffix appended by `tools.py` when content is cut
(`"... (content truncated)"`, lines 96/98/237). -/
def truncMarker : String := "... (content truncated)"

/-- The two-line truncation idiom of `tools.py`
(`if len(s) > n: s = s[:n] + "... (content truncated)"`). -/
def truncate (n : Nat) (s : String) : String :=
  if s.length > n then strTake n s ++ truncMarker else s

/-- Outcome of parsing an HTTP response body as JSON (`response.json()`):
either a parsed value or a raised decode error carrying its message. -/
inductive Parsed (α : Type) where
  | exn (msg : String)
  | ok (v : α)
deriving DecidableEq, Repr

/-! ## Firecrawl (scrape) wire model -/

/-- The `metadata` object inside the Firecrawl payload's `data` object;
each field read via `.get(_, "N/A")`. -/
structure FirecrawlMeta where
  title : Option String := none
  description : Option String := none
  language : Option String := none
deriving DecidableEq, Repr

/-- The `data` object of the Firecrawl payload
(`content`, `markdown`, `metadata`, `links`). -/
structure FirecrawlData where
  content : Option String := none
  markdown : Option String := none
  metadata : Option FirecrawlMeta := none
  links : List String := []
deriving DecidableEq, Repr

/-- Top-level Firecrawl JSON payload.  `success` models the truthiness of
`response_data.get("success", False)`, so an absent flag is `false`;
`data` is `response_data.get("data", {})` with absence as `none`. -/
structure FirecrawlPayload where
  success : Bool := false
  data : Option FirecrawlData := none
deriving DecidableEq, Repr

/-- Behaviour of the single `session.post` in `scrape_website`:
a response (with the outcome of `response.json()`, which is only consulted
when the status code is 200), or one of the caught exception classes. -/
inductive ScrapeNet where
  | httpResp (code : Nat) (text : String) (body : Parsed FirecrawlPayload)
  | timeout
  | requestExn (msg : String)
  | otherExn (msg : String)
deriving DecidableEq, Repr

/-- The `"Basic Information"` sub-dictionary of a successful scrape. -/
structure BasicInformation where
  URL : String
  Title : String
  Description : String
  Language : String
deriving DecidableEq, Repr

/-- The `"Content"` sub-dictionary of a successful scrape. -/
structure ContentBlock where
  Text : String
  Markdown : String
deriving DecidableEq, Repr

/-- The `website_data` dictionary of a successful scrape. -/
structure WebsiteData where
  basicInformation : BasicInformation
  content : ContentBlock
  links : List String
deriving DecidableEq, Repr

/-- The dictionary returned by `scrape_website`.  Error returns carry
`error_message` and `url` and omit the payload fields; the success return
carries `website_data` and `timestamp` and omits `error_message`/`url`
(absent keys are `none`). -/
structure ScrapeResponse where
  status : String
  error_message : Option String := none
  url : Option String := none
  website_data : Option WebsiteData := none
  timestamp : Option String := none
deriving DecidableEq, Repr

/-- The outbound request body `{url, formats:["markdown"], waitFor:5000,
timeout:30000}` built by `scrape_website`. -/
structure SentScrapeRequest where
  url : String
  formats : List String := ["markdown"]
  waitFor : Nat := 5000
  timeoutMs : Nat := 30000
deriving DecidableEq, Repr

/-- Embedding of `scrape_website` (`tools.py` lines 16–164).

Arguments beyond the Python signature make the call's environment explicit:
`api_key` is `os.getenv("FIRECRAWL_API_KEY")`, `net` the behaviour of the
outbound POST, `now` the value of `datetime.datetime.now().isoformat()`.
The second component of the result is the list of outbound HTTP requests
issued during the call.  The function is total: every branch, including
every caught exception, returns a structured response. -/
def scrape_website (website_url : String) (session_id : String)
    (api_key : Option String) (net : ScrapeNet) (now : String) :
    ScrapeResponse × List SentScrapeRequest :=
  let _ := session_id   -- opaque passthrough label, unused by the body
  -- validate inputs (line 29)
  if website_url = "" then
    ({ status := "error",
       error_message := some "Invalid website URL provided",
       url := some website_url }, [])
  else
    -- credential check (lines 37–43); `not api_key` is true for both a
    -- missing variable and an empty string
    match api_key with
    | none =>
      ({ status := "error",
         error_message := some "FIRECRAWL_API_KEY not found in environment variables",
         url := some website_url }, [])
    | some key =>
      if key = "" then
        ({ status := "error",
           error_message := some "FIRECRAWL_API_KEY not found in environment variables",
           url := some website_url }, [])
      else
        let sent : List SentScrapeRequest := [{ url := website_url }]
        match net with
        | .httpResp code text body =>
          if code = 200 then
            match body with
            | .exn msg =>
              -- `response.json()` raised (lines 148–155)
              ({ status := "error",
                 error_message := some ("Invalid JSON response for " ++ website_url ++ ": " ++ msg),
                 url := some website_url }, sent)
            | .ok payload =>
              if payload.success = false then
                -- lines 78–85
                ({ status := "error",
                   error_message := some "Failed to scrape website: API returned unsuccessful response",
                   url := some website_url }, sent)
              else
                -- lines 87–120
                let wd := payload.data.getD {}
                let md := wd.metadata.getD {}
                ({ status := "success",
                   website_data := some
                     { basicInformation :=
                         { URL := website_url,
                           Title := md.title.getD "N/A",
                           Description := md.description.getD "N/A",
                           Language := md.language.getD "N/A" },
                       content :=
                         { Text := truncate 4000 (wd.content.getD "N/A"),
                           Markdown := truncate 4000 (wd.markdown.getD "N/A") },
                       links := wd.links.take 5 },
                   timestamp := some now }, sent)
          else
            -- lines 121–128
            ({ status := "error",
               error_message := some ("API Error " ++ toString code ++ ": " ++ text),
               url := some website_url }, sent)
        | .timeout =>
          ({ status := "error",
             error_message := some ("Timeout while scraping website: " ++ website_url),
             url := some website_url }, sent)
        | .requestExn msg =>
          ({ status := "error",
             error_message := some ("Request failed for " ++ website_url ++ ": " ++ msg),
             url := some website_url }, sent)
        | .otherExn msg =>
          ({ status := "error",
             error_message := some ("Unexpected error scraping " ++ website_url ++ ": " ++ msg),
             url := some website_url }, sent)

/-! ## Tavily (search) wire model -/

/-- One entry of the upstream `results` array; each field is read with
`.get`, so absence is `none`.  JSON relevance scores are carried opaquely
as integers (the adapter only passes them through, defaulting to `0`). -/
structure TavilyResult where
  title : Option String := none
  url : Option String := none
  content : Option String := none
  score : Option Int := none
deriving DecidableEq, Repr

/-- The Tavily JSON payload: `results` array and optional `answer`. -/
structure TavilyPayload where
  results : List TavilyResult := []
  answer : Option String := none
deriving DecidableEq, Repr

/-- Behaviour of the single `requests.post` in `tavily_search`:
a response (status code, body text, JSON-parse outcome), or a raised
exception (all exception classes land in the one `except Exception`). -/
inductive TavilyNet where
  | resp (code : Nat) (text : String) (body : Parsed TavilyPayload)
  | exn (msg : String)
deriving DecidableEq, Repr

/-- A processed search result: exactly the fields kept by lines 240–245. -/
structure SearchResult where
  title : String
  url : String
  content : String
  score : Int
deriving DecidableEq, Repr

/-- The dictionary returned by `tavily_search`; absent keys are `none`. -/
structure SearchResponse where
  status : String
  error_message : Option String := none
  query : Option String := none
  results : Option (List SearchResult) := none
  answer : Option String := none
deriving DecidableEq, Repr

/-- The outbound request body built by `tavily_search` (the fields that
depend on the call; the remaining sub-options are fixed constants). -/
structure SentSearchRequest where
  query : String
  search_depth : String
  max_results : Int
deriving DecidableEq, Repr

/-- Per-result processing of lines 234–246: truncate `content` at 1000
characters (with marker) when present, then keep only
`{title, url, content, score}` with the `.get` defaults. -/
def processResult (r : TavilyResult) : SearchResult :=
  let content :=
    match r.content with
    | some c => if c.length > 1000 then strTake 1000 c ++ truncMarker else c
    | none => ""
  { title := r.title.getD "",
    url := r.url.getD "",
    content := content,
    score := r.score.getD 0 }

/-- Embedding of `tavily_search` (`tools.py` lines 166–258).

`max_results` is the integer after the string-to-int coercion of line 185.
`net` is the behaviour of the outbound POST; the second component of the
result is the list of outbound HTTP requests issued.  The function is
total: every branch, including the caught exceptions, returns a structured
response. -/
def tavily_search (query : String) (search_depth : String) (max_results : Int)
    (net : TavilyNet) : SearchResponse × List SentSearchRequest :=
  if query = "" then
    ({ status := "error", error_message := some "Query must be a non-empty string" }, [])
  else if max_results ≤ 0 then
    ({ status := "error", error_message := some "max_results must be a positive integer" }, [])
  else
    -- invalid depth silently coerced to "basic" (lines 189–192)
    let depth := if search_depth = "basic" ∨ search_depth = "advanced" then search_depth else "basic"
    let sent : List SentSearchRequest :=
      [{ query := query, search_depth := depth, max_results := max_results }]
    match net with
    | .exn msg =>
      ({ status := "error", error_message := some ("Error in tavily_search: " ++ msg) }, sent)
    | .resp code text body =>
      if code ≠ 200 then
        ({ status := "error", error_message := some ("API Error " ++ toString code ++ ": " ++ text) }, sent)
      else
        match body with
        | .exn msg =>
          -- `response.json()` raised; caught by the blanket handler (line 255)
          ({ status := "error", error_message := some ("Error in tavily_search: " ++ msg) }, sent)
        | .ok payload =>
          ({ status := "success",
             query := some query,
             results := some (payload.results.map processResult),
             answer := some (match payload.answer with
               | some a => if a = "" then "" else strTake 500 a
               | none => "") }, sent)

/-! ## Derived definitions and concrete stub inputs -/

/-- A response with its `timestamp` key removed; two responses that agree
under `stripTime` differ at most in their timestamps. -/
def stripTime (r : ScrapeResponse) : ScrapeResponse :=
  { r with timestamp := none }

/-- The response-shape invariant shared by both adapters: the status is
`"success"`, or it is `"error"` and the `error_message` key is present and
non-empty. -/
def statusOkOrError (status : String) (em : Option String) : Prop :=
  status = "success" ∨ (status = "error" ∧ ∃ m, em = some m ∧ m ≠ "")

/-- A 600-character upstream answer string. -/
def a600 : String := String.mk (List.replicate 600 'a')

/-- Stubbed Tavily payload: 3 results and the 600-character answer `a600`. -/
def ansPayload : TavilyPayload where
  results := [{ title := some "t1" }, { title := some "t2" }, { title := some "t3" }]
  answer := some a600

/-- Stubbed Firecrawl `data` object for a successful scrape. -/
def okData : FirecrawlData where
  content := some "hello"
  markdown := some "# hi"
  metadata := some { title := some "T" }
  links := ["a", "b", "c", "d", "e", "f", "g"]

/-- Stubbed upstream behaviour: HTTP 200, `success:true`, data `okData`. -/
def scrapeOkNet : ScrapeNet :=
  .httpResp 200 "" (.ok { success := true, data := some okData })

/-- A 1001-character search result content string. -/
def longContent : String := String.mk (List.replicate 1001 'b')

/-- A search result whose content exceeds the 1000-character limit. -/
def longResult : TavilyResult := { content := some longContent }

/-- Tavily payload containing `longResult`. -/
def longResultPayload : TavilyPayload := { results := [longResult] }

/-- A 4001-character scrape content string. -/
def longPage : String := String.mk (List.replicate 4001 'x')

/-- Firecrawl data whose content exceeds the 4000-character limit. -/
def longPageData : FirecrawlData := { content := some longPage, markdown := some "md" }

/-- Firecrawl payload over `longPageData`. -/
def longPagePayload : FirecrawlPayload := { success := true, data := some longPageData }

/-- Firecrawl data with 7 links. -/
def manyLinksData : FirecrawlData :=
  { links := ["l1", "l2", "l3", "l4", "l5", "l6", "l7"] }

/-- Firecrawl payload over `manyLinksData`. -/
def manyLinksPayload : FirecrawlPayload := { success := true, data := some manyLinksData }

/-! ## Helper lemmas -/

/-- A string whose first character is known is not empty. -/
theorem ne_empty_of_head (a : String) (c : Char) (h : a.data.head? = some c) :
    a ≠ "" := by
  intro he
  rw [he] at h
  exact Option.noConfusion h

/-- Strings with distinct first characters are distinct. -/
theorem ne_of_heads (a b : String) (c d : Char) (ha : a.data.head? = some c)
    (hb : b.data.head? = some d) (h : c ≠ d) : a ≠ b := by
  intro he
  rw [he, hb] at ha
  exact h (Option.some.inj ha).symm

/-! ## Claims -/

/-- C3: for every input and every upstream behaviour (including raised
exceptions), `tavily_search` and `scrape_website` return a structured value
(they are total functions in this embedding, mirroring the exception
handlers at the adapter boundary) whose `status` is `"success"` or
`"error"`, and an `"error"` status always comes with a present, non-empty
`error_message`. -/
theorem claim_C3 :
    (∀ (q d : String) (m : Int) (net : TavilyNet),
      statusOkOrError (tavily_search q d m net).1.status
        (tavily_search q d m net).1.error_message) ∧
    (∀ (url sid : String) (key : Option String) (net : ScrapeNet) (now : String),
      statusOkOrError (scrape_website url sid key net now).1.status
        (scrape_website url sid key net now).1.error_message) := by
  constructor
  · intro q d m net
    unfold tavily_search statusOkOrError
    repeat' split
    all_goals try (exact Or.inl rfl)
    all_goals refine Or.inr ⟨rfl, _, rfl, ?_⟩
    all_goals first
      | exact ne_empty_of_head _ 'Q' rfl
      | exact ne_empty_of_head _ 'm' rfl
      | exact ne_empty_of_head _ 'E' rfl
      | exact ne_empty_of_head _ 'A' rfl
  · intro url sid key net now
    unfold scrape_website statusOkOrError
    repeat' split
    all_goals try (exact Or.inl rfl)
    all_goals refine Or.inr ⟨rfl, _, rfl, ?_⟩
    all_goals first
      | exact ne_empty_of_head _ 'I' rfl
      | exact ne_empty_of_head _ 'F' rfl
      | exact ne_empty_of_head _ 'A' rfl
      | exact ne_empty_of_head _ 'T' rfl
      | exact ne_empty_of_head _ 'R' rfl
      | exact ne_empty_of_head _ 'U' rfl

/-- C10: every error-status value returned by `scrape_website` — whatever
the failing branch (invalid input, missing credential, non-200 status,
unsuccessful payload, timeout, network failure, malformed JSON, or
unexpected exception) — carries a `url` field equal to the `website_url`
argument. -/
theorem claim_C10 :
    ∀ (url sid : String) (key : Option String) (net : ScrapeNet) (now : String),
      (scrape_website url sid key net now).1.status = "success" ∨
      ((scrape_website url sid key net now).1.status = "error" ∧
       (scrape_website url sid key net now).1.url = some url) := by
  intro url sid key net now
  unfold scrape_website
  repeat' split
  all_goals first
    | exact Or.inl rfl
    | exact Or.inr ⟨rfl, rfl⟩

/-- C2 counterexample: two `scrape_website` calls with identical arguments
and an identical stubbed upstream payload, made at different wall-clock
readings, return structurally different values (the success response embeds
`datetime.datetime.now().isoformat()`). -/
theorem claim_C2_counterexample :
    (scrape_website "https://example.com" "default_session" (some "key")
        scrapeOkNet "2024-01-01T00:00:00").1 ≠
    (scrape_website "https://example.com" "default_session" (some "key")
        scrapeOkNet "2024-01-01T00:00:01").1 := by
  decide

/-- C2 (amended): identical arguments against an identical stubbed upstream
produce responses that agree on every field except the `timestamp` (which is
the wall-clock reading injected at each call), and identical outbound
request lists; with equal clock readings the responses are fully identical.
`tavily_search` reads no clock, so its output is (by the shape of the
embedding) a function of its arguments and the upstream payload alone. -/
theorem claim_C2 :
    ∀ (url sid : String) (key : Option String) (net : ScrapeNet) (t1 t2 : String),
      (scrape_website url sid key net t1).1.status = (scrape_website url sid key net t2).1.status ∧
      (scrape_website url sid key net t1).1.error_message = (scrape_website url sid key net t2).1.error_message ∧
      (scrape_website url sid key net t1).1.url = (scrape_website url sid key net t2).1.url ∧
      (scrape_website url sid key net t1).1.website_data = (scrape_website url sid key net t2).1.website_data ∧
      stripTime (scrape_website url sid key net t1).1 = stripTime (scrape_website url sid key net t2).1 ∧
      (scrape_website url sid key net t1).2 = (scrape_website url sid key net t2).2 := by
  intro url sid key net t1 t2
  unfold scrape_website stripTime
  repeat' split
  all_goals exact ⟨rfl, rfl, rfl, rfl, rfl, rfl⟩

/-- C4: for every non-empty query and every (post-coercion) `max_results`
value `≤ 0`, `tavily_search` returns the fixed `"max_results must be a
positive integer"` error and issues no outbound HTTP request. -/
theorem claim_C4 (q d : String) (m : Int) (net : TavilyNet)
    (hq : q ≠ "") (hm : m ≤ 0) :
    (tavily_search q d m net).1 =
      { status := "error",
        error_message := some "max_results must be a positive integer" } ∧
    (tavily_search q d m net).2 = [] := by
  unfold tavily_search
  rw [if_neg hq, if_pos hm]
  exact ⟨rfl, rfl⟩

/-- C4 witness: the scenario `tavily_search "CIO Saudi Aramco" "basic" 0`
returns the `max_results` error and makes no network call, whatever the
stubbed upstream would have answered. -/
theorem claim_C4_witness :
    (tavily_search "CIO Saudi Aramco" "basic" 0 (.exn "boom")).1 =
      { status := "error",
        error_message := some "max_results must be a positive integer" } ∧
    (tavily_search "CIO Saudi Aramco" "basic" 0 (.exn "boom")).2 = [] :=
  claim_C4 "CIO Saudi Aramco" "basic" 0 (.exn "boom") (by decide) (by decide)

/-- C5: for every non-empty `website_url`, when the `FIRECRAWL_API_KEY`
credential is absent from the environment, `scrape_website` returns an
error whose message names the missing credential, and issues no outbound
HTTP request. -/
theorem claim_C5 (url sid now : String) (net : ScrapeNet) (hu : url ≠ "") :
    (scrape_website url sid none net now).1 =
      { status := "error",
        error_message := some "FIRECRAWL_API_KEY not found in environment variables",
        url := some url } ∧
    (scrape_website url sid none net now).2 = [] := by
  unfold scrape_website
  rw [if_neg hu]
  exact ⟨rfl, rfl⟩

/-- C5 witness: the scenario `scrape_website "https://example.com"` with a
missing credential returns the credential error and makes no network call. -/
theorem claim_C5_witness :
    (scrape_website "https://example.com" "default_session" none scrapeOkNet "t").1 =
      { status := "error",
        error_message := some "FIRECRAWL_API_KEY not found in environment variables",
        url := some "https://example.com" } ∧
    (scrape_website "https://example.com" "default_session" none scrapeOkNet "t").2 = [] :=
  claim_C5 "https://example.com" "default_session" "t" scrapeOkNet (by decide)

theorem tavily_eval_ok (q d text : String) (m : Int) (p : TavilyPayload)
    (hq : q ≠ "") (hm : ¬ m ≤ 0) :
    tavily_search q d m (.resp 200 text (.ok p)) =
      ({ status := "success",
         query := some q,
         results := some (p.results.map processResult),
         answer := some (match p.answer with
           | some a => if a = "" then "" else strTake 500 a
           | none => "") },
       [{ query := q,
          search_depth := if d = "basic" ∨ d = "advanced" then d else "basic",
          max_results := m }]) := by
  unfold tavily_search
  rw [if_neg hq, if_neg hm]
  rfl

theorem scrape_eval_ok (url sid k text now : String) (p : FirecrawlPayload)
    (hu : url ≠ "") (hk : k ≠ "") (hs : p.success = true) :
    scrape_website url sid (some k) (.httpResp 200 text (.ok p)) now =
      ({ status := "success",
         website_data := some
           { basicInformation :=
               { URL := url,
                 Title := (((p.data.getD {}).metadata.getD {}).title.getD "N/A"),
                 Description := (((p.data.getD {}).metadata.getD {}).description.getD "N/A"),
                 Language := (((p.data.getD {}).metadata.getD {}).language.getD "N/A") },
             content :=
               { Text := truncate 4000 ((p.data.getD {}).content.getD "N/A"),
                 Markdown := truncate 4000 ((p.data.getD {}).markdown.getD "N/A") },
             links := (p.data.getD {}).links.take 5 },
         timestamp := some now }, [{ url := url }]) := by
  simp only [scrape_website]
  rw [if_neg hu, if_neg hk, hs]
  rfl

theorem scrape_eval_unsuccessful (url sid k text now : String) (p : FirecrawlPayload)
    (hu : url ≠ "") (hk : k ≠ "") (hs : p.success = false) :
    scrape_website url sid (some k) (.httpResp 200 text (.ok p)) now =
      ({ status := "error",
         error_message := some "Failed to scrape website: API returned unsuccessful response",
         url := some url }, [{ url := url }]) := by
  simp only [scrape_website]
  rw [if_neg hu, if_neg hk, hs]
  rfl

theorem scrape_eval_non200 (url sid k text now : String) (code : Nat)
    (b : Parsed FirecrawlPayload)
    (hu : url ≠ "") (hk : k ≠ "") (hc : code ≠ 200) :
    scrape_website url sid (some k) (.httpResp code text b) now =
      ({ status := "error",
         error_message := some ("API Error " ++ toString code ++ ": " ++ text),
         url := some url }, [{ url := url }]) := by
  simp only [scrape_website]
  rw [if_neg hu, if_neg hk, if_neg hc]

theorem strMkRep_length (n : Nat) (c : Char) :
    (String.mk (List.replicate n c)).length = n :=
  List.length_replicate n c

theorem claim_C1_counterexample :
    (tavily_search "CIO Saudi Aramco" "basic" 3 (.resp 200 "" (.ok ansPayload))).1.status = "success" ∧
    ((tavily_search "CIO Saudi Aramco" "basic" 3 (.resp 200 "" (.ok ansPayload))).1.results.getD []).length = 3 ∧
    a600.length = 600 ∧
    ((tavily_search "CIO Saudi Aramco" "basic" 3 (.resp 200 "" (.ok ansPayload))).1.answer.getD "").length = 500 ∧
    ((tavily_search "CIO Saudi Aramco" "basic" 3 (.resp 200 "" (.ok ansPayload))).1.answer.getD "").length ≠
      500 + truncMarker.length ∧
    (tavily_search "CIO Saudi Aramco" "basic" 3 (.resp 200 "" (.ok ansPayload))).1.answer ≠
      some (strTake 500 a600 ++ truncMarker) := by
  decide

theorem claim_C1 (q d text : String) (m : Int) (p : TavilyPayload) (a : String)
    (hq : q ≠ "") (hm : 0 < m) (ha : p.answer = some a) (hlen : 500 < a.length) :
    (tavily_search q d m (.resp 200 text (.ok p))).1.status = "success" ∧
    (tavily_search q d m (.resp 200 text (.ok p))).1.results =
      some (p.results.map processResult) ∧
    (tavily_search q d m (.resp 200 text (.ok p))).1.answer = some (strTake 500 a) ∧
    (strTake 500 a).length = 500 := by
  have hne : a ≠ "" := by
    intro h
    rw [h] at hlen
    exact absurd hlen (by decide)
  rw [tavily_eval_ok q d text m p hq (by omega)]
  refine ⟨rfl, rfl, ?_, ?_⟩
  · show some (match p.answer with
      | some a => if a = "" then "" else strTake 500 a
      | none => "") = some (strTake 500 a)
    rw [ha]
    show some (if a = "" then "" else strTake 500 a) = some (strTake 500 a)
    rw [if_neg hne]
  · show (a.data.take 500).length = 500
    have h2 : 500 < a.data.length := hlen
    rw [List.length_take]
    omega

theorem claim_C1_witness :
    (tavily_search "CIO Saudi Aramco" "basic" 3 (.resp 200 "" (.ok ansPayload))).1.status = "success" ∧
    (tavily_search "CIO Saudi Aramco" "basic" 3 (.resp 200 "" (.ok ansPayload))).1.results =
      some (ansPayload.results.map processResult) ∧
    (tavily_search "CIO Saudi Aramco" "basic" 3 (.resp 200 "" (.ok ansPayload))).1.answer =
      some (strTake 500 a600) ∧
    (strTake 500 a600).length = 500 :=
  claim_C1 "CIO Saudi Aramco" "basic" "" 3 ansPayload a600 (by decide) (by decide) rfl
    (by rw [show a600.length = 600 from strMkRep_length 600 'a']; omega)

theorem claim_C6 (url sid k text1 text2 now1 now2 : String) (p : FirecrawlPayload)
    (code : Nat) (b : Parsed FirecrawlPayload)
    (hu : url ≠ "") (hk : k ≠ "") (hp : p.success = false) (hc : code ≠ 200) :
    (scrape_website url sid (some k) (.httpResp 200 text1 (.ok p)) now1).1.status = "error" ∧
    (scrape_website url sid (some k) (.httpResp 200 text1 (.ok p)) now1).1.error_message =
      some "Failed to scrape website: API returned unsuccessful response" ∧
    (scrape_website url sid (some k) (.httpResp code text2 b) now2).1.status = "error" ∧
    (scrape_website url sid (some k) (.httpResp code text2 b) now2).1.error_message =
      some ("API Error " ++ toString code ++ ": " ++ text2) ∧
    (scrape_website url sid (some k) (.httpResp 200 text1 (.ok p)) now1).1.error_message ≠
      (scrape_website url sid (some k) (.httpResp code text2 b) now2).1.error_message := by
  rw [scrape_eval_unsuccessful url sid k text1 now1 p hu hk hp,
      scrape_eval_non200 url sid k text2 now2 code b hu hk hc]
  refine ⟨rfl, rfl, rfl, rfl, ?_⟩
  intro he
  exact ne_of_heads "Failed to scrape website: API returned unsuccessful response"
    ("API Error " ++ toString code ++ ": " ++ text2) 'F' 'A' rfl rfl (by decide)
    (Option.some.inj he)

theorem claim_C6_witness :
    (scrape_website "https://example.com" "default_session" (some "key")
        (.httpResp 200 "body" (.ok { success := false })) "t1").1.error_message =
      some "Failed to scrape website: API returned unsuccessful response" ∧
    (scrape_website "https://example.com" "default_session" (some "key")
        (.httpResp 404 "not found" (.exn "no json")) "t2").1.error_message =
      some ("API Error " ++ toString 404 ++ ": " ++ "not found") ∧
    (scrape_website "https://example.com" "default_session" (some "key")
        (.httpResp 200 "body" (.ok { success := false })) "t1").1.error_message ≠
      (scrape_website "https://example.com" "default_session" (some "key")
        (.httpResp 404 "not found" (.exn "no json")) "t2").1.error_message := by
  have h := claim_C6 "https://example.com" "default_session" "key" "body" "not found"
    "t1" "t2" { success := false } 404 (.exn "no json") (by decide) (by decide) rfl (by decide)
  exact ⟨h.2.1, h.2.2.2.1, h.2.2.2.2⟩

theorem claim_C7 (q d text : String) (m : Int) (p : TavilyPayload)
    (hq : q ≠ "") (hm : 0 < m) :
    (tavily_search q d m (.resp 200 text (.ok p))).1.status = "success" ∧
    (tavily_search q d m (.resp 200 text (.ok p))).1.results =
      some (p.results.map processResult) ∧
    (∀ r : TavilyResult, ∀ c : String, r.content = some c →
      (c.length ≤ 1000 → (processResult r).content = c) ∧
      (1000 < c.length →
        (processResult r).content = strTake 1000 c ++ truncMarker ∧
        (strTake 1000 c).length = 1000)) := by
  rw [tavily_eval_ok q d text m p hq (by omega)]
  refine ⟨rfl, rfl, ?_⟩
  intro r c hc
  constructor
  · intro hle
    simp only [processResult, hc]
    rw [if_neg (by omega)]
  · intro hgt
    constructor
    · simp only [processResult, hc]
      rw [if_pos (by omega)]
    · show (c.data.take 1000).length = 1000
      have h2 : 1000 < c.data.length := hgt
      rw [List.length_take]
      omega

theorem claim_C7_witness :
    (tavily_search "CIO Saudi Aramco" "basic" 3 (.resp 200 "" (.ok longResultPayload))).1.status = "success" ∧
    (tavily_search "CIO Saudi Aramco" "basic" 3 (.resp 200 "" (.ok longResultPayload))).1.results =
      some (longResultPayload.results.map processResult) ∧
    (processResult longResult).content = strTake 1000 longContent ++ truncMarker ∧
    (strTake 1000 longContent).length = 1000 := by
  have h := claim_C7 "CIO Saudi Aramco" "basic" "" 3 longResultPayload (by decide) (by decide)
  have hlen : 1000 < longContent.length := by
    rw [show longContent.length = 1001 from strMkRep_length 1001 'b']
    omega
  exact ⟨h.1, h.2.1, ((h.2.2 longResult longContent rfl).2 hlen).1,
    ((h.2.2 longResult longContent rfl).2 hlen).2⟩

theorem claim_C8 (url sid k text now : String) (p : FirecrawlPayload) (d : FirecrawlData)
    (hu : url ≠ "") (hk : k ≠ "") (hs : p.success = true) (hd : p.data = some d) :
    (scrape_website url sid (some k) (.httpResp 200 text (.ok p)) now).1.website_data =
      some { basicInformation :=
               { URL := url,
                 Title := ((d.metadata.getD {}).title.getD "N/A"),
                 Description := ((d.metadata.getD {}).description.getD "N/A"),
                 Language := ((d.metadata.getD {}).language.getD "N/A") },
             content :=
               { Text := truncate 4000 (d.content.getD "N/A"),
                 Markdown := truncate 4000 (d.markdown.getD "N/A") },
             links := d.links.take 5 } ∧
    (∀ s : String, (s.length ≤ 4000 → truncate 4000 s = s) ∧
      (4000 < s.length →
        truncate 4000 s = strTake 4000 s ++ truncMarker ∧
        (strTake 4000 s).length = 4000)) := by
  constructor
  · rw [scrape_eval_ok url sid k text now p hu hk hs, hd]
    rfl
  · intro s
    constructor
    · intro hle
      unfold truncate
      rw [if_neg (by omega)]
    · intro hgt
      constructor
      · unfold truncate
        rw [if_pos (by omega)]
      · show (s.data.take 4000).length = 4000
        have h2 : 4000 < s.data.length := hgt
        rw [List.length_take]
        omega

theorem claim_C8_witness :
    (scrape_website "https://example.com" "default_session" (some "key")
        (.httpResp 200 "" (.ok longPagePayload)) "t").1.website_data =
      some { basicInformation :=
               { URL := "https://example.com",
                 Title := ((longPageData.metadata.getD {}).title.getD "N/A"),
                 Description := ((longPageData.metadata.getD {}).description.getD "N/A"),
                 Language := ((longPageData.metadata.getD {}).language.getD "N/A") },
             content :=
               { Text := truncate 4000 (longPageData.content.getD "N/A"),
                 Markdown := truncate 4000 (longPageData.markdown.getD "N/A") },
             links := longPageData.links.take 5 } ∧
    truncate 4000 longPage = strTake 4000 longPage ++ truncMarker ∧
    (strTake 4000 longPage).length = 4000 := by
  have h := claim_C8 "https://example.com" "default_session" "key" "" "t"
    longPagePayload longPageData (by decide) (by decide) rfl rfl
  have hlen : 4000 < longPage.length := by
    rw [show longPage.length = 4001 from strMkRep_length 4001 'x']
    omega
  exact ⟨h.1, ((h.2 longPage).2 hlen).1, ((h.2 longPage).2 hlen).2⟩

theorem claim_C9 (url sid k text now : String) (p : FirecrawlPayload) (d : FirecrawlData)
    (hu : url ≠ "") (hk : k ≠ "") (hs : p.success = true) (hd : p.data = some d) :
    ((scrape_website url sid (some k) (.httpResp 200 text (.ok p)) now).1.website_data.map
        WebsiteData.links) = some (d.links.take 5) ∧
    (d.links.take 5).length ≤ 5 ∧
    (5 ≤ d.links.length → (d.links.take 5).length = 5) ∧
    (d.links.length < 5 → d.links.take 5 = d.links) := by
  refine ⟨?_, ?_, ?_, ?_⟩
  · rw [scrape_eval_ok url sid k text now p hu hk hs, hd]
    rfl
  · exact List.length_take_le 5 d.links
  · intro h
    rw [List.length_take]
    omega
  · intro h
    exact List.take_of_length_le (by omega)

theorem claim_C9_witness :
    ((scrape_website "https://example.com" "default_session" (some "key")
        (.httpResp 200 "" (.ok manyLinksPayload)) "t").1.website_data.map
        WebsiteData.links) = some (manyLinksData.links.take 5) ∧
    (manyLinksData.links.take 5).length = 5 := by
  have h := claim_C9 "https://example.com" "default_session" "key" "" "t"
    manyLinksPayload manyLinksData (by decide) (by decide) rfl rfl
  exact ⟨h.1, h.2.2.1 (by decide)⟩
